import Mathlib

/-!
Shallow embedding of the per-tenant chat-session orchestration core:
the client registry (`whatsapp-client-manager.ts`), the pairing lock
(`user-lock` module), the pairing flow promise machine
(`generateQrCodeFlow` in `whatsapp-flow.ts`), the inbound-reply handler
(`handleIncomingMessage`), the outbound dispatch flow
(`sendNewContactsFlow`) and the answer generator (`generateAnswerFlow`).
All definitions are translated from the TypeScript source; external
effects (Firestore, the chat transport, the AI model) are passed in as
explicit state or outcome parameters.
-/

namespace StudioCore

/-! ## Data model -/

/-- Contact status values used by the Firestore `contacts` collection. -/
inductive Status where
  | Pendente
  | Contatado
  | Respondido
  | Recuperado
  | Perdido
deriving DecidableEq, Repr

/-- A contact document, as read by the flows (`id`, `name`, `phone`,
`product`, `userId`, `status`). -/
structure Contact where
  id : String
  name : String
  phone : String
  product : String
  userId : String
  status : Status
deriving DecidableEq, Repr

/-- The contacts collection, in query order. -/
abbrev DB := List Contact

/-- The external `whatsapp-web.js` client handle; the only behavior the
core observes from `destroy()` is whether it raises. -/
structure Client where
  destroyFails : Bool
deriving DecidableEq, Repr

/-! ## Client manager (`src/lib/whatsapp-client-manager.ts`) -/

/-- State of the manager module: `activeClients` and `intervalTrackers`
maps keyed by user id. -/
structure ManagerState where
  clients : List (String × Client)
  intervals : List (String × Nat)
deriving DecidableEq, Repr

/-- The manager operation `getClient(userId)`: `activeClients.get(userId)`. -/
def getClient (m : ManagerState) (u : String) : Option Client :=
  (m.clients.find? (fun p => p.1 == u)).map (fun p => p.2)

/-- The manager operation `setClient(userId, client)`: `activeClients.set(userId, client)`
(replaces any existing entry for the key). -/
def setClient (m : ManagerState) (u : String) (c : Client) : ManagerState :=
  { m with clients := m.clients.filter (fun p => p.1 != u) ++ [(u, c)] }

/-- The manager operation `getClientStatus(userId)`: `'connected'` iff the map has the key. -/
def getClientStatus (m : ManagerState) (u : String) : String :=
  if (m.clients.find? (fun p => p.1 == u)).isSome then "connected" else "disconnected"

/-- The manager operation `stopSendingInterval(userId)`: if an interval is tracked for the
user, clear it and drop the entry; otherwise do nothing. -/
def stopSendingInterval (m : ManagerState) (u : String) : ManagerState :=
  if (m.intervals.find? (fun p => p.1 == u)).isSome then
    { m with intervals := m.intervals.filter (fun p => p.1 != u) }
  else m

/-- Error message observed when `client.destroy()` rejects. -/
def destroyErrMsg : String := "Error destroying client"

/-- The external call `client.destroy()`: may raise, depending on the handle. -/
def destroy (c : Client) : Except String Unit :=
  if c.destroyFails then Except.error destroyErrMsg else Except.ok ()

/-- Drop the registry entry for a user (the `finally` block's
`activeClients.delete(userId)`). -/
def eraseClient (m : ManagerState) (u : String) : ManagerState :=
  { m with clients := m.clients.filter (fun p => p.1 != u) }

/-- Result of one `deleteClient` call: the new module state, the console
log lines, and any exception that escaped the call (the `try/catch`
inside `deleteClient` means none ever does). -/
structure DeleteResult where
  state : ManagerState
  logs : List String
  thrown : Option String
deriving DecidableEq, Repr

/-- The manager operation `deleteClient(userId)`: stop the interval, then, if a client is
registered, `destroy()` it inside `try { } catch (logged) finally
{ delete entry }`; if none is registered, just log. -/
def deleteClient (m : ManagerState) (u : String) : DeleteResult :=
  let m1 := stopSendingInterval m u
  match getClient m1 u with
  | some c =>
    match destroy c with
    | Except.ok _ =>
      { state := eraseClient m1 u, logs := ["Client destroyed."], thrown := none }
    | Except.error e =>
      { state := eraseClient m1 u, logs := [e], thrown := none }
  | none => { state := m1, logs := ["No active client to delete."], thrown := none }

/-! ## Pairing lock (`user-lock` module, `acquireLock`/`releaseLock`) -/

/-- The lock operation `acquireLock(userId)`: fail fast if the id is in the locked set,
otherwise add it and report success. -/
def acquireLock (locks : List String) (u : String) : Bool × List String :=
  if locks.contains u then (false, locks) else (true, u :: locks)

/-- The lock operation `releaseLock(userId)`: drop the id from the locked set if present. -/
def releaseLock (locks : List String) (u : String) : List String :=
  if locks.contains u then locks.filter (fun v => v != u) else locks

/-- The lock operation `isLocked(userId)`. -/
def isLocked (locks : List String) (u : String) : Bool := locks.contains u

/-! ## Answer generation (`generateAnswerFlow`) -/

/-- Fallback returned when the model yields no (or an empty) answer. -/
def fallbackNoAnswer : String :=
  "Desculpe, não consegui pensar em uma boa resposta para isso. Poderia reformular a sua pergunta?"

/-- Fallback returned when the prompt call raises. -/
def fallbackGenError : String :=
  "Estou com um pouco de dificuldade para processar sua mensagem. Você poderia tentar novamente em um instante?"

/-- The flow `generateAnswerFlow`: calls the prompt; `if (!output?.answer)`
(missing output, missing field, or empty string — all falsy) returns the
fixed fallback; a raised error is caught and mapped to the generic
fallback. The prompt call's outcome is the explicit argument. -/
def generateAnswerFlow (promptResult : Except Unit (Option String)) : String :=
  match promptResult with
  | Except.error _ => fallbackGenError
  | Except.ok none => fallbackNoAnswer
  | Except.ok (some a) => if a = "" then fallbackNoAnswer else a

/-! ## Inbound reply handler (`handleIncomingMessage` in `whatsapp-flow.ts`) -/

/-- An inbound message event: the chat id it came from and its body. -/
structure InMsg where
  sender : String
  body : String
deriving DecidableEq, Repr

/-- The phone derivation `const phone = chatId.split('@')[0]`: the prefix of the chat id before the first `@`. -/
def inboundPhone (msg : InMsg) : String :=
  String.mk (msg.sender.toList.takeWhile (fun ch => ch != '@'))

/-- The Firestore query of `handleIncomingMessage`: contacts of this
user with this phone whose status is `'Contatado'` or `'Respondido'`,
in collection order. -/
def inboundMatches (db : DB) (u : String) (phone : String) : List Contact :=
  db.filter (fun c =>
    c.userId == u && c.phone == phone &&
      (c.status == Status.Contatado || c.status == Status.Respondido))

/-- The store update `updateDoc(doc(db, 'contacts', cid), ...)`: update the status
of the document with that id. -/
def setStatus (db : DB) (cid : String) (st : Status) : DB :=
  db.map (fun d => if d.id == cid then { d with status := st } else d)

/-- Observable effects of one `handleIncomingMessage` call: the contacts
collection afterwards, the `sendMessage` calls `(chatId, text)`, the
`message_logs` rows `(userId, contactId)`, and the `messagesSent`
counter increments. -/
structure HandlerResult where
  db : DB
  sent : List (String × String)
  msgLogs : List (String × String)
  statsInc : Nat
deriving DecidableEq, Repr

/-- The handler `handleIncomingMessage(message, userId, client)`: find matching
contacts; if none, return silently; otherwise act on `docs[0]` only —
if the AI answer is truthy, send it, log it and bump the counter; either
way set the contact's status to `'Respondido'`. The answer produced by
the `generateAnswer` collaborator is the explicit `aiAnswer` argument. -/
def handleIncomingMessage (db : DB) (u : String) (aiAnswer : String) (msg : InMsg) :
    HandlerResult :=
  let phone := inboundPhone msg
  match inboundMatches db u phone with
  | [] => { db := db, sent := [], msgLogs := [], statsInc := 0 }
  | c :: _ =>
    if aiAnswer != "" then
      { db := setStatus db c.id Status.Respondido
        sent := [(msg.sender, aiAnswer)]
        msgLogs := [(u, c.id)]
        statsInc := 1 }
    else
      { db := setStatus db c.id Status.Respondido
        sent := []
        msgLogs := []
        statsInc := 0 }

/-! ## Outbound dispatch (`sendNewContactsFlow` and `sendMessage`) -/

/-- The query `fetchPendingContacts(userId)`: contacts of this user with status
`'Pendente'`, in collection order. -/
def fetchPendingContacts (db : DB) (u : String) : List Contact :=
  db.filter (fun c => c.userId == u && c.status == Status.Pendente)

/-- Mark one contact `'Contatado'`. -/
def markContacted (db : DB) (cid : String) : DB := setStatus db cid Status.Contatado

/-- Modelled from the spec: `sendMessage` is imported from
`./sendMessage-flow`, a file not present in the source tree. Per §4.4 of
the spec it walks the batch in sequence; on send success it marks the
contact Contacted, on send failure it logs and continues to the next
contact, never aborting the batch. The per-recipient transport outcome
is the `sendOk` oracle. Returns the contacts collection afterwards, the
ids attempted in order, and the number of successful sends. -/
def sendMessage (sendOk : Contact → Bool) : List Contact → DB → DB × List String × Nat
  | [], db => (db, [], 0)
  | c :: rest, db =>
    if sendOk c then
      let r := sendMessage sendOk rest (markContacted db c.id)
      (r.1, c.id :: r.2.1, r.2.2 + 1)
    else
      let r := sendMessage sendOk rest db
      (r.1, c.id :: r.2.1, r.2.2)

/-- Result shape of `sendNewContactsFlow`. -/
structure SendOut where
  success : Bool
  message : String
  count : Nat
deriving DecidableEq, Repr

/-- The "not connected" message returned when no client is registered. -/
def notConnectedMsg : String :=
  "Não é possível enviar mensagens. O WhatsApp não está conectado. Por favor, vá para as Configurações para conectar."

/-- Message returned after a dispatch pass over a non-empty batch. -/
def sentBatchMsg : String := "Mensagens enviadas para contatos pendentes."

/-- Message returned when no pending contact exists. -/
def noPendingMsg : String := "Nenhum contato pendente encontrado."

/-- The flow `sendNewContactsFlow(input)`: look up the managed client; if none,
return the "not connected" result with `count: 0`; otherwise fetch the
pending contacts and, if any, run `sendMessage` over them and return
`count: pendingContacts.length`. Also returns the contacts collection
afterwards and the ids attempted. -/
def sendNewContactsFlow (m : ManagerState) (sendOk : Contact → Bool) (db : DB)
    (u : String) : SendOut × DB × List String :=
  match getClient m u with
  | none => ({ success := false, message := notConnectedMsg, count := 0 }, db, [])
  | some _ =>
    let pending := fetchPendingContacts db u
    if 0 < pending.length then
      let r := sendMessage sendOk pending db
      ({ success := true, message := sentBatchMsg, count := pending.length }, r.1, r.2.1)
    else
      ({ success := true, message := noPendingMsg, count := 0 }, db, [])

/-! ## Pairing flow (`generateQrCodeFlow` in `whatsapp-flow.ts`) -/

/-- How the flow's promise settles. -/
inductive FlowOutcome where
  | resolved (qr : Option String) (status : String)
  | rejected (msg : String)
deriving DecidableEq, Repr

/-- Rejection message of the 45-second pairing timeout. -/
def timeoutMsg : String := "A conexão expirou. Por favor, tente gerar um novo QR Code."

/-- Rejection message of the `auth_failure` handler. -/
def authFailMsg : String := "Falha na autenticação. Por favor, gere um novo QR Code."

/-- Rejection message when `qrcode.toDataURL` fails. -/
def qrEncodeFailMsg : String := "Falha ao gerar o QR code."

/-- Rejection message when `client.initialize()` fails. -/
def initFailMsg : String := "Falha ao inicializar o cliente WhatsApp. Tente novamente."

/-- State of one pairing attempt: the flow's local variables
(`qrResolved`, the pending timeout), the client's condition (`info` is
set by the library once the client is ready; `listening` once the
`message` handler is attached; `destroyed` once `client.destroy()` ran),
the promise settlement, and the client-manager module state. -/
structure FlowState where
  userId : String
  client : Client
  qrResolved : Bool
  timerActive : Bool
  info : Bool
  listening : Bool
  destroyed : Bool
  settled : Option FlowOutcome
  manager : ManagerState
deriving DecidableEq, Repr

/-- Promise settlement is first-wins: later resolves/rejects are no-ops. -/
def settle (s : Option FlowOutcome) (o : FlowOutcome) : Option FlowOutcome :=
  match s with
  | some x => some x
  | none => some o

/-- Events delivered to the flow's handlers: a `qr` event (with the
outcome of `qrcode.toDataURL`), `ready`, the timeout callback firing,
`auth_failure`, `disconnected`, and an `initialize()` rejection. -/
inductive FlowEvent where
  | qr (encoded : Option String)
  | ready
  | timerFire
  | authFailure
  | disconnected
  | initFailure
deriving DecidableEq, Repr

/-- One handler invocation of `generateQrCodeFlow`, straight from the
source: the `qr` handler resolves once with the data URI (or clears the
timer and rejects if encoding fails); the `ready` handler clears the
timer, registers the client via `setClient` and attaches the `message`
listener (its fire-and-forget `sendNewContacts` run acts on the record
store, not on this state); the timeout callback is guarded by
`if (!client.info)` and, before ready, destroys the client, calls
`deleteClient` and rejects with the timeout message; `auth_failure`
clears the timer, calls `deleteClient` and rejects; `disconnected`
clears the timer and calls `deleteClient` without rejecting. -/
def step (s : FlowState) : FlowEvent → FlowState
  | FlowEvent.qr enc =>
    if s.qrResolved then s
    else
      match enc with
      | some dataUri =>
        { s with qrResolved := true
                 settled := settle s.settled (FlowOutcome.resolved (some dataUri) "pending_qr") }
      | none =>
        { s with timerActive := false
                 settled := settle s.settled (FlowOutcome.rejected qrEncodeFailMsg) }
  | FlowEvent.ready =>
    { s with timerActive := false
             info := true
             manager := setClient s.manager s.userId s.client
             listening := true }
  | FlowEvent.timerFire =>
    if s.info then s
    else
      { s with destroyed := true
               manager := (deleteClient s.manager s.userId).state
               settled := settle s.settled (FlowOutcome.rejected timeoutMsg) }
  | FlowEvent.authFailure =>
    { s with timerActive := false
             manager := (deleteClient s.manager s.userId).state
             settled := settle s.settled (FlowOutcome.rejected authFailMsg) }
  | FlowEvent.disconnected =>
    { s with timerActive := false
             manager := (deleteClient s.manager s.userId).state }
  | FlowEvent.initFailure =>
    { s with timerActive := false
             settled := settle s.settled (FlowOutcome.rejected initFailMsg) }

/-- A pairing attempt together with the per-tenant pairing-lock set. -/
structure PairState where
  flow : FlowState
  locks : List String
deriving DecidableEq, Repr

/-- Modelled from the spec: the caller-side wiring that holds the
per-tenant pairing lock during a pairing attempt is not present under
`src/` — the lock module (`acquireLock`/`releaseLock`) exists but has no
caller in the tree. Per §4.3 ("If the deadline elapses while the session
is still in Initializing or AwaitingScan ... release the lock") the
timeout firing before ready also releases the tenant's lock; other
events leave the lock set to the flow's own handlers. -/
def pairStep (p : PairState) (e : FlowEvent) : PairState :=
  { flow := step p.flow e
    locks :=
      match e with
      | FlowEvent.timerFire =>
        if p.flow.info then p.locks else releaseLock p.locks p.flow.userId
      | _ => p.locks }

/-- Modelled from the spec: `startPairing(tenantId)` (§6) begins by
acquiring the per-tenant pairing lock (§2 control flow, §4.1); the
wiring is absent from `src/`. It succeeds iff the lock is acquired. -/
def startPairing (locks : List String) (u : String) : Bool × List String :=
  acquireLock locks u

/-! ## Helper lemmas -/

theorem find?_filter_ne {α : Type} (l : List (String × α)) (u : String) :
    (l.filter (fun p => p.1 != u)).find? (fun p => p.1 == u) = none := by
  rw [List.find?_eq_none]
  intro x hx
  have hm := (List.mem_filter.mp hx).2
  simp only [bne_iff_ne, ne_eq] at hm
  simp [hm]

theorem getClient_stopSendingInterval (m : ManagerState) (u v : String) :
    getClient (stopSendingInterval m u) v = getClient m v := by
  unfold stopSendingInterval
  split <;> rfl

theorem getClient_eraseClient_self (m : ManagerState) (u : String) :
    getClient (eraseClient m u) u = none := by
  unfold getClient eraseClient
  simp [find?_filter_ne]

theorem getClient_deleteClient_self (m : ManagerState) (u : String) :
    getClient (deleteClient m u).state u = none := by
  unfold deleteClient
  cases h : getClient (stopSendingInterval m u) u with
  | none => simp [h]
  | some c =>
    cases hd : destroy c <;> simp [h, hd, getClient_eraseClient_self]

theorem intervals_find?_stopSendingInterval (m : ManagerState) (u : String) :
    (stopSendingInterval m u).intervals.find? (fun p => p.1 == u) = none := by
  unfold stopSendingInterval
  split
  · exact find?_filter_ne m.intervals u
  · next h => exact Option.not_isSome_iff_eq_none.mp (by simpa using h)

theorem stopSendingInterval_of_find?_none (m : ManagerState) (u : String)
    (h : m.intervals.find? (fun p => p.1 == u) = none) :
    stopSendingInterval m u = m := by
  unfold stopSendingInterval
  simp [h]

theorem intervals_deleteClient (m : ManagerState) (u : String) :
    (deleteClient m u).state.intervals = (stopSendingInterval m u).intervals := by
  unfold deleteClient
  cases h : getClient (stopSendingInterval m u) u with
  | none => simp [h]
  | some c => cases hd : destroy c <;> simp [h, hd, eraseClient]

theorem getClient_setClient_self (m : ManagerState) (u : String) (c : Client) :
    getClient (setClient m u c) u = some c := by
  unfold getClient setClient
  rw [List.find?_append, find?_filter_ne]
  simp

theorem contains_filter_ne_self (l : List String) (u : String) :
    (l.filter (fun v => v != u)).contains u = false := by
  simp only [List.contains_eq_any_beq, List.any_eq_false]
  intro x hx
  have hm := (List.mem_filter.mp hx).2
  simp only [bne_iff_ne, ne_eq] at hm
  simp [beq_eq_false_iff_ne]
  exact fun he => hm he.symm

theorem releaseLock_contains_self (l : List String) (u : String) :
    (releaseLock l u).contains u = false := by
  unfold releaseLock
  split
  · exact contains_filter_ne_self l u
  · next h => simpa using h

theorem sendMessage_attempts (sendOk : Contact → Bool) (batch : List Contact) (db : DB) :
    (sendMessage sendOk batch db).2.1 = batch.map (fun c => c.id) := by
  induction batch generalizing db with
  | nil => rfl
  | cons c rest ih =>
    unfold sendMessage
    split <;> simp [ih]

theorem deleteClient_no_client (m : ManagerState) (u : String)
    (h : getClient (stopSendingInterval m u) u = none) :
    deleteClient m u =
      { state := stopSendingInterval m u
        logs := ["No active client to delete."]
        thrown := none } := by
  unfold deleteClient
  simp [h]

/-! ## Witness inputs -/

/-- A sample inbound event from a known phone. -/
def wMsg : InMsg := ⟨"5511999999999@c.us", "pergunta"⟩

/-- A contacted contact matching `wMsg`. -/
def wC1 : Contact := ⟨"c1", "Ana", "5511999999999", "Produto", "u1", Status.Contatado⟩

/-- A duplicate contact for the same phone. -/
def wC2 : Contact := ⟨"c2", "Ana", "5511999999999", "Produto", "u1", Status.Respondido⟩

/-- Three pending contacts for tenant `u1`. -/
def wP1 : Contact := ⟨"p1", "Ana", "5511000000001", "ProdA", "u1", Status.Pendente⟩

/-- Second pending contact. -/
def wP2 : Contact := ⟨"p2", "Bia", "5511000000002", "ProdB", "u1", Status.Pendente⟩

/-- Third pending contact. -/
def wP3 : Contact := ⟨"p3", "Caio", "5511000000003", "ProdC", "u1", Status.Pendente⟩

/-- A transport that fails exactly on the second recipient. -/
def wSendOk : Contact → Bool := fun c => c.id != "p2"

/-- A manager state with a live client for `u1`. -/
def wMgr : ManagerState := ⟨[("u1", ⟨false⟩)], []⟩

/-- A fresh pairing attempt for `u1`: timer armed, no payload produced,
not ready, promise pending, empty registry. -/
def wFlow : FlowState :=
  { userId := "u1", client := ⟨false⟩, qrResolved := false, timerActive := true
    info := false, listening := false, destroyed := false, settled := none
    manager := ⟨[], []⟩ }

/-! ## Claims -/

/-- Claim C1: a pairing attempt that reaches the ready state has its
pairing-timeout timer canceled on that transition, the registry then
holds the tenant's client, and a delayed firing of the timer after
ready leaves the state untouched — it does not reject the attempt, does
not destroy the handle, and does not remove the registry entry. -/
theorem ready_cancels_timer_late_fire_harmless (s : FlowState) :
    (step s FlowEvent.ready).timerActive = false ∧
    getClient (step s FlowEvent.ready).manager s.userId = some s.client ∧
    step (step s FlowEvent.ready) FlowEvent.timerFire = step s FlowEvent.ready ∧
    (step (step s FlowEvent.ready) FlowEvent.timerFire).settled =
      (step s FlowEvent.ready).settled ∧
    (step (step s FlowEvent.ready) FlowEvent.timerFire).destroyed =
      (step s FlowEvent.ready).destroyed ∧
    (step (step s FlowEvent.ready) FlowEvent.timerFire).manager =
      (step s FlowEvent.ready).manager := by
  refine ⟨rfl, getClient_setClient_self _ _ _, ?_, ?_, ?_, ?_⟩ <;> simp [step]

/-- Claim C2: when the deadline fires on an attempt that has neither
produced a pairing payload nor become ready, the attempt is rejected
with the timeout-specific reason, the handle is destroyed, the registry
no longer contains the tenant, the pairing lock is released, and a
subsequent `startPairing` for the same tenant succeeds. -/
theorem pairing_timeout_cleans_up (p : PairState)
    (hinfo : p.flow.info = false) (hset : p.flow.settled = none) :
    (pairStep p FlowEvent.timerFire).flow.settled =
      some (FlowOutcome.rejected timeoutMsg) ∧
    (pairStep p FlowEvent.timerFire).flow.destroyed = true ∧
    getClient (pairStep p FlowEvent.timerFire).flow.manager p.flow.userId = none ∧
    (pairStep p FlowEvent.timerFire).locks.contains p.flow.userId = false ∧
    (startPairing (pairStep p FlowEvent.timerFire).locks p.flow.userId).1 = true := by
  have h1 := getClient_deleteClient_self p.flow.manager p.flow.userId
  have h2 := releaseLock_contains_self p.locks p.flow.userId
  have hL : (pairStep p FlowEvent.timerFire).locks = releaseLock p.locks p.flow.userId := by
    simp [pairStep, hinfo]
  refine ⟨?_, ?_, ?_, ?_, ?_⟩
  · simp [pairStep, step, hinfo, hset, settle]
  · simp [pairStep, step, hinfo]
  · simp [pairStep, step, hinfo, h1]
  · rw [hL]; exact h2
  · rw [hL]
    simp only [startPairing, acquireLock, releaseLock_contains_self]
    simp

/-- Witness for claim C2 at a concrete fresh attempt for `u1` holding
the lock. -/
theorem pairing_timeout_cleans_up_witness :
    (pairStep ⟨wFlow, ["u1"]⟩ FlowEvent.timerFire).flow.settled =
      some (FlowOutcome.rejected timeoutMsg) ∧
    (pairStep ⟨wFlow, ["u1"]⟩ FlowEvent.timerFire).flow.destroyed = true ∧
    getClient (pairStep ⟨wFlow, ["u1"]⟩ FlowEvent.timerFire).flow.manager "u1" = none ∧
    (pairStep ⟨wFlow, ["u1"]⟩ FlowEvent.timerFire).locks.contains "u1" = false ∧
    (startPairing (pairStep ⟨wFlow, ["u1"]⟩ FlowEvent.timerFire).locks "u1").1 = true :=
  pairing_timeout_cleans_up ⟨wFlow, ["u1"]⟩ rfl rfl

/-- Counterexample to claim C3 as stated: with a live client, three
pending contacts and the send to the second recipient failing, every
recipient is still attempted, but the returned count is 3 — the batch
size — not the number 2 of successful sends. -/
theorem sendNewContactsFlow_count_counterexample :
    (sendNewContactsFlow wMgr wSendOk [wP1, wP2, wP3] "u1").2.2 = ["p1", "p2", "p3"] ∧
    (sendNewContactsFlow wMgr wSendOk [wP1, wP2, wP3] "u1").1.count = 3 ∧
    ¬ (sendNewContactsFlow wMgr wSendOk [wP1, wP2, wP3] "u1").1.count = 2 := by
  refine ⟨by decide, by decide, by decide⟩

/-- Claim C3 (amended): over a non-empty pending batch, a failing
recipient never aborts the batch — every pending contact is attempted,
in order — and the returned count is the size of the pending batch
(regardless of individual send failures), not the number of successful
sends. -/
theorem sendNewContactsFlow_attempts_all (m : ManagerState) (sendOk : Contact → Bool)
    (db : DB) (u : String) (c : Client)
    (hc : getClient m u = some c) (hp : fetchPendingContacts db u ≠ []) :
    (sendNewContactsFlow m sendOk db u).2.2 =
      (fetchPendingContacts db u).map (fun x => x.id) ∧
    (sendNewContactsFlow m sendOk db u).1.count = (fetchPendingContacts db u).length := by
  have hl : 0 < (fetchPendingContacts db u).length := List.length_pos.mpr hp
  constructor <;> simp [sendNewContactsFlow, hc, hl, sendMessage_attempts]

/-- Witness for the amended claim C3 at the concrete failing batch. -/
theorem sendNewContactsFlow_attempts_all_witness :
    getClient wMgr "u1" = some ⟨false⟩ ∧
    fetchPendingContacts [wP1, wP2, wP3] "u1" ≠ [] ∧
    ((sendNewContactsFlow wMgr wSendOk [wP1, wP2, wP3] "u1").2.2 =
        (fetchPendingContacts [wP1, wP2, wP3] "u1").map (fun x => x.id) ∧
      (sendNewContactsFlow wMgr wSendOk [wP1, wP2, wP3] "u1").1.count =
        (fetchPendingContacts [wP1, wP2, wP3] "u1").length) :=
  ⟨by decide, by decide,
    sendNewContactsFlow_attempts_all wMgr wSendOk [wP1, wP2, wP3] "u1" ⟨false⟩
      (by decide) (by decide)⟩

/-- Claim C4: with no registered client for the tenant, the dispatch
flow returns the "not connected" result with count 0, without raising,
and leaves every contact's status unchanged. -/
theorem sendNewContactsFlow_not_connected (m : ManagerState) (sendOk : Contact → Bool)
    (db : DB) (u : String) (h : getClient m u = none) :
    sendNewContactsFlow m sendOk db u =
      ({ success := false, message := notConnectedMsg, count := 0 }, db, []) := by
  simp [sendNewContactsFlow, h]

/-- Witness for claim C4 with an empty registry and one pending contact. -/
theorem sendNewContactsFlow_not_connected_witness :
    sendNewContactsFlow ⟨[], []⟩ (fun _ => true) [wP1] "u1" =
      ({ success := false, message := notConnectedMsg, count := 0 }, [wP1], []) :=
  sendNewContactsFlow_not_connected ⟨[], []⟩ (fun _ => true) [wP1] "u1" rfl

/-- Claim C5: an inbound event with no matching contact is dropped
silently — no status change, no send, no metric — and when one or more
contacts match, exactly the first match is acted on, even when
duplicates exist. -/
theorem handleIncomingMessage_first_match_only (db : DB) (u : String) (a : String)
    (msg : InMsg) :
    (inboundMatches db u (inboundPhone msg) = [] →
      handleIncomingMessage db u a msg =
        { db := db, sent := [], msgLogs := [], statsInc := 0 }) ∧
    (∀ c cs, inboundMatches db u (inboundPhone msg) = c :: cs →
      (handleIncomingMessage db u a msg).db = setStatus db c.id Status.Respondido ∧
      (handleIncomingMessage db u a msg).msgLogs =
        (if a = "" then [] else [(u, c.id)]) ∧
      (handleIncomingMessage db u a msg).sent =
        (if a = "" then [] else [(msg.sender, a)])) := by
  constructor
  · intro h
    simp [handleIncomingMessage, h]
  · intro c cs h
    by_cases ha : a = ""
    · simp [handleIncomingMessage, h, ha]
    · have hb : (a != "") = true := bne_iff_ne.mpr ha
      simp [handleIncomingMessage, h, ha, hb]

/-- Witness for claim C5: a silent drop on an empty collection, and the
first of two duplicate matches acted on. -/
theorem handleIncomingMessage_first_match_only_witness :
    handleIncomingMessage [] "u1" "oi" wMsg =
      { db := [], sent := [], msgLogs := [], statsInc := 0 } ∧
    ((handleIncomingMessage [wC1, wC2] "u1" "oi" wMsg).db =
        setStatus [wC1, wC2] wC1.id Status.Respondido ∧
      (handleIncomingMessage [wC1, wC2] "u1" "oi" wMsg).msgLogs =
        (if ("oi" : String) = "" then [] else [("u1", wC1.id)]) ∧
      (handleIncomingMessage [wC1, wC2] "u1" "oi" wMsg).sent =
        (if ("oi" : String) = "" then [] else [(wMsg.sender, "oi")])) :=
  ⟨(handleIncomingMessage_first_match_only [] "u1" "oi" wMsg).1 (by decide),
    (handleIncomingMessage_first_match_only [wC1, wC2] "u1" "oi" wMsg).2
      wC1 [wC2] (by decide)⟩

/-- Claim C6: when the AI answer is empty, the handler sends no reply
and records no message-sent metric, but still advances the matched
contact's status to `Respondido`; the handler returns normally. -/
theorem handleIncomingMessage_empty_answer_advances (db : DB) (u : String) (msg : InMsg)
    (c : Contact) (cs : List Contact)
    (h : inboundMatches db u (inboundPhone msg) = c :: cs) :
    (handleIncomingMessage db u "" msg).sent = [] ∧
    (handleIncomingMessage db u "" msg).msgLogs = [] ∧
    (handleIncomingMessage db u "" msg).statsInc = 0 ∧
    (handleIncomingMessage db u "" msg).db = setStatus db c.id Status.Respondido := by
  refine ⟨?_, ?_, ?_, ?_⟩ <;> simp [handleIncomingMessage, h]

/-- Witness for claim C6 at a matched contact and the empty answer. -/
theorem handleIncomingMessage_empty_answer_witness :
    (handleIncomingMessage [wC1] "u1" "" wMsg).sent = [] ∧
    (handleIncomingMessage [wC1] "u1" "" wMsg).msgLogs = [] ∧
    (handleIncomingMessage [wC1] "u1" "" wMsg).statsInc = 0 ∧
    (handleIncomingMessage [wC1] "u1" "" wMsg).db =
      setStatus [wC1] wC1.id Status.Respondido :=
  handleIncomingMessage_empty_answer_advances [wC1] "u1" wMsg wC1 [] (by decide)

/-- Claim C7: acquiring the lock twice for the same tenant with no
intervening release returns true on the first call and false on the
second; the second attempt fails fast. -/
theorem acquireLock_twice_fails_fast (locks : List String) (u : String)
    (h : locks.contains u = false) :
    (acquireLock locks u).1 = true ∧
    (acquireLock (acquireLock locks u).2 u).1 = false := by
  have hfst : acquireLock locks u = (true, u :: locks) := by
    unfold acquireLock
    rw [h]
    simp
  rw [hfst]
  refine ⟨rfl, ?_⟩
  have hc : (u :: locks).contains u = true := by simp
  unfold acquireLock
  rw [hc]
  simp

/-- Witness for claim C7 at the empty lock set and tenant `u1`. -/
theorem acquireLock_twice_fails_fast_witness :
    (acquireLock [] "u1").1 = true ∧
    (acquireLock (acquireLock [] "u1").2 "u1").1 = false :=
  acquireLock_twice_fails_fast [] "u1" rfl

/-- Claim C8: calling `deleteClient` twice in a row raises no error on
the second call, the second call leaves the registry state unchanged,
and no entry for the tenant remains. -/
theorem deleteClient_twice_idempotent (m : ManagerState) (u : String) :
    (deleteClient (deleteClient m u).state u).thrown = none ∧
    (deleteClient (deleteClient m u).state u).state = (deleteClient m u).state ∧
    getClient (deleteClient (deleteClient m u).state u).state u = none := by
  have h1 : getClient (deleteClient m u).state u = none := getClient_deleteClient_self m u
  have hint : (deleteClient m u).state.intervals.find? (fun p => p.1 == u) = none := by
    rw [intervals_deleteClient]
    exact intervals_find?_stopSendingInterval m u
  have hstop : stopSendingInterval (deleteClient m u).state u = (deleteClient m u).state :=
    stopSendingInterval_of_find?_none _ u hint
  have h2 : getClient (stopSendingInterval (deleteClient m u).state u) u = none := by
    rw [hstop]; exact h1
  have hd := deleteClient_no_client (deleteClient m u).state u h2
  rw [hd]
  exact ⟨rfl, hstop, by rw [hstop]; exact h1⟩

/-- Claim C9: when a registered handle's `destroy()` raises during
removal, the error is logged and not propagated, and the registry entry
is still removed. -/
theorem deleteClient_destroy_error_still_removes (m : ManagerState) (u : String)
    (c : Client) (h : getClient m u = some c) (hf : c.destroyFails = true) :
    (deleteClient m u).thrown = none ∧
    getClient (deleteClient m u).state u = none ∧
    destroyErrMsg ∈ (deleteClient m u).logs := by
  have h1 : getClient (stopSendingInterval m u) u = some c := by
    rw [getClient_stopSendingInterval]; exact h
  have hd : destroy c = Except.error destroyErrMsg := by simp [destroy, hf]
  refine ⟨?_, ?_, ?_⟩ <;>
    · unfold deleteClient
      simp [h1, hd, getClient_eraseClient_self]

/-- Witness for claim C9 at a registry whose only client fails to
destroy. -/
theorem deleteClient_destroy_error_witness :
    (deleteClient ⟨[("u1", ⟨true⟩)], []⟩ "u1").thrown = none ∧
    getClient (deleteClient ⟨[("u1", ⟨true⟩)], []⟩ "u1").state "u1" = none ∧
    destroyErrMsg ∈ (deleteClient ⟨[("u1", ⟨true⟩)], []⟩ "u1").logs :=
  deleteClient_destroy_error_still_removes ⟨[("u1", ⟨true⟩)], []⟩ "u1" ⟨true⟩
    (by decide) rfl

/-- Claim C10: `generateAnswerFlow` returns a non-empty answer on every
prompt outcome (fixed non-empty fallbacks when the model errors or
produces no output), so the inbound handler's skip-sending branch is
never taken when the answer comes from this collaborator: the reply is
sent and the metric recorded. -/
theorem generateAnswerFlow_never_empty (p : Except Unit (Option String)) (db : DB)
    (u : String) (msg : InMsg) (c : Contact) (cs : List Contact)
    (h : inboundMatches db u (inboundPhone msg) = c :: cs) :
    generateAnswerFlow p ≠ "" ∧
    (handleIncomingMessage db u (generateAnswerFlow p) msg).sent =
      [(msg.sender, generateAnswerFlow p)] ∧
    (handleIncomingMessage db u (generateAnswerFlow p) msg).statsInc = 1 := by
  have hne : generateAnswerFlow p ≠ "" := by
    cases p with
    | error e => exact (by decide : fallbackGenError ≠ "")
    | ok o =>
      cases o with
      | none => exact (by decide : fallbackNoAnswer ≠ "")
      | some a =>
        show (if a = "" then fallbackNoAnswer else a) ≠ ""
        by_cases ha : a = ""
        · rw [if_pos ha]
          exact (by decide : fallbackNoAnswer ≠ "")
        · rw [if_neg ha]
          exact ha
  have hb : (generateAnswerFlow p != "") = true := bne_iff_ne.mpr hne
  refine ⟨hne, ?_, ?_⟩ <;> simp [handleIncomingMessage, h, hb]

/-- Witness for claim C10: a failing prompt call on the matched contact
still yields a sent reply. -/
theorem generateAnswerFlow_never_empty_witness :
    generateAnswerFlow (Except.error ()) ≠ "" ∧
    (handleIncomingMessage [wC1] "u1" (generateAnswerFlow (Except.error ())) wMsg).sent =
      [(wMsg.sender, generateAnswerFlow (Except.error ()))] ∧
    (handleIncomingMessage [wC1] "u1" (generateAnswerFlow (Except.error ())) wMsg).statsInc
      = 1 :=
  generateAnswerFlow_never_empty (Except.error ()) [wC1] "u1" wMsg wC1 [] (by decide)

end StudioCore
